import Mathlib

/-!
A shallow embedding of `dns_packet_parser.py` from the dns-tls-relay
repository, together with theorems about its behaviour.

Bytes are modelled as `Nat` (well-formed buffers hold values `< 256`;
theorems add that hypothesis where the arithmetic needs it).  Python
byte strings become `List Nat`.  Python exceptions are modelled with
`Except`: a failing method returns `Except.error (st, e)` carrying the
object state at the moment of the throw (Python mutates `self` in
place, so partial updates made before the throw survive), and the
`try/except` in `parse` becomes a `match` that discards the error.
-/

namespace DnsRelay

/-! ### Module-level constants (dns_packet_parser.py lines 8-21) -/

def TCP : Nat := 6
def UDP : Nat := 17

def A_RECORD : Nat := 1
def CNAME : Nat := 5
def SOA : Nat := 6
def OPT : Nat := 41

def DEFAULT_TTL : Nat := 3600
def MINIMUM_TTL : Nat := 300
def MAX_A_RECORD_COUNT : Nat := 3

def DNS_QUERY : Nat := 0
def DNS_RESPONSE : Nat := 128

/-! ### Python byte-string primitives -/

/-- `struct.pack` with format `!H`: two big-endian bytes.  Faithful to
Python for `n < 2^16` (Python raises `struct.error` beyond that;
theorems that use this add the bound as a hypothesis). -/
def pack16 (n : Nat) : List Nat := [n / 256 % 256, n % 256]

/-- `struct.pack` with format `!L`: four big-endian bytes.  Faithful to
Python for `n < 2^32`. -/
def pack32 (n : Nat) : List Nat :=
  [n / 2 ^ 24 % 256, n / 2 ^ 16 % 256, n / 2 ^ 8 % 256, n % 256]

/-- `struct.unpack` with format `!H`: requires exactly two bytes,
otherwise Python raises `struct.error` (modelled as `none`). -/
def unpack16 (l : List Nat) : Option Nat :=
  match l with
  | [a, b] => some (a * 256 + b)
  | _ => none

/-- `struct.unpack` with format `!L`: requires exactly four bytes. -/
def unpack32 (l : List Nat) : Option Nat :=
  match l with
  | [a, b, c, d] => some (((a * 256 + b) * 256 + c) * 256 + d)
  | _ => none

/-- `struct.unpack` with format `!2H`: requires exactly four bytes. -/
def unpack2H (l : List Nat) : Option (Nat × Nat) :=
  match l with
  | [a, b, c, d] => some (a * 256 + b, c * 256 + d)
  | _ => none

/-- `struct.unpack` with format `!4H`: requires exactly eight bytes. -/
def unpack4H (l : List Nat) : Option (Nat × Nat × Nat × Nat) :=
  match l with
  | [a, b, c, d, e, f, g, h] =>
      some (a * 256 + b, c * 256 + d, e * 256 + f, g * 256 + h)
  | _ => none

/-- Python slice `l[:n]` with a possibly negative `n`
(`l[:-k]` keeps all but the last `k` elements; out-of-range indices
clamp, they never raise). -/
def pyTake (l : List Nat) (n : Int) : List Nat :=
  if 0 ≤ n then l.take n.toNat else l.take (l.length - (-n).toNat)

/-- Python slice `l[n:]` with a possibly negative `n`
(`l[-k:]` keeps the last `k` elements; out-of-range indices clamp). -/
def pyDrop (l : List Nat) (n : Int) : List Nat :=
  if 0 ≤ n then l.drop n.toNat else l.drop (l.length - (-n).toNat)

/-- Python `l.split(b'\x00', 1)`: the part before the first zero byte,
and (when a zero byte exists) the part after it.  `none` in the second
component models a single-element result list, where indexing `[1]`
raises `IndexError`. -/
def splitFirst0 : List Nat → List Nat × Option (List Nat)
  | [] => ([], none)
  | b :: rest =>
    if b = 0 then ([], some rest)
    else
      let p := splitFirst0 rest
      (b :: p.1, p.2)

/-- Python `str.lower()`, for the ASCII strings the code handles
(Python additionally lowercases non-ASCII characters; every name the
claims exercise is ASCII). -/
def pyLower (s : String) : String := String.mk (s.data.map Char.toLower)

/-- Python `==` between a tuple and an int (`additional_type == OPT`
on line 150, where `additional_type` is the 1-tuple returned by
`struct.unpack` — the code omits the `[0]` index).  Comparing values
of different types never raises in Python and is always `False`. -/
def pyTupleEqInt (_t : List Nat) (_n : Nat) : Bool := false

/-- Python `'.' in qname` on line 224, where `qname` is the tuple of
integer byte values produced by `struct.unpack` on line 209 (not the
decoded string).  Membership tests `'.' == b` for each integer
element; a `str` never equals an `int`, so the test is always
`False`. -/
def pyStrDotInIntTuple (_qname : List Nat) : Bool := false

/-! ### Object state -/

/-- Python exception classes raised by the byte-level operations. -/
inductive PyError where
  | structError
  | indexError
  | attributeError
deriving DecidableEq

/-- One entry of `standard_records` / `authority_records`: the tuple
`(record_type, record_ttl, nlen, resource_record)` appended on
line 142. -/
structure RecordEntry where
  rtype : Nat
  rttl : Nat
  nlen : Nat
  rbytes : List Nat
deriving DecidableEq

/-- The mutable attributes of a `PacketManipulation` object.  Fields
that `__init__` does not create (`dns_header`, `packet_type`, the
counts, `query_name`, `question_record`, `resource_record`,
`request`, `request2`, `request_tld`, `data_to_cache`, `dns_query`)
default to empty/zero/`none` here, standing for "attribute not yet
assigned".  `parse_errors` models the external diagnostics sink
`record_parse_error` receiving `{'rtype': ..., 'nlen': ..., 'data': ...}`. -/
structure ParserState where
  data : List Nat
  dns_id : Nat := 0
  qtype : Nat := 0
  qclass : Nat := 0
  cache_ttl : Nat := 0
  dns_opt : Bool := false
  dns_response : Bool := false
  dns_query : Bool := false
  dns_pointer : List Nat := [192, 12]
  cache_header : List Nat := []
  send_data : List Nat := []
  offset : Int := 0
  cname_count : Nat := 0
  a_record_count : Nat := 0
  standard_records : List RecordEntry := []
  authority_records : List RecordEntry := []
  additional_records : List (List Nat) := []
  dns_header : List Nat := []
  packet_type : Nat := 0
  question_count : Nat := 0
  standard_count : Nat := 0
  authority_count : Nat := 0
  additional_count : Nat := 0
  query_name : List Nat := []
  question_record : List Nat := []
  resource_record : List Nat := []
  request : String := ""
  request2 : Option String := none
  request_tld : Option String := none
  data_to_cache : List Nat := []
  parse_errors : List (Nat × Nat × List Nat) := []
deriving DecidableEq

/-- `PacketManipulation.__init__(data, protocol)`: UDP keeps the buffer,
TCP strips the 2-byte stream length prefix.  (For any other protocol
Python leaves `self.data` unset; no caller passes one, modelled as an
empty buffer.) -/
def init (data : List Nat) (protocol : Nat) : ParserState :=
  { data := if protocol = UDP then data
            else if protocol = TCP then data.drop 2
            else [] }

/-- `get_dns_id`: big-endian 16-bit id from the first two bytes
(`struct.error`, i.e. `none`, on a shorter buffer). -/
def get_dns_id (st : ParserState) : Option Nat :=
  unpack16 (st.data.take 2)

/-- `header` (lines 67-82): slices the 12-byte header, reads the id,
the response bit (byte 2 bit 7) and the four section counts.  Each
`struct.unpack`/index step raises when the buffer is too short. -/
def headerM (st : ParserState) : Except (ParserState × PyError) ParserState :=
  let st0 := { st with dns_header := st.data.take 12 }
  match unpack16 (st0.data.take 2) with
  | none => .error (st0, .structError)
  | some i =>
    let st1 := { st0 with dns_id := i }
    match st1.dns_header.get? 2 with
    | none => .error (st1, .indexError)
    | some b2 =>
      let pt := b2 &&& (1 <<< 7)
      let st2 := { st1 with packet_type := pt }
      let st3 := if pt ≠ 0 then { st2 with dns_response := true }
                 else { st2 with dns_query := true }
      match unpack4H ((st3.dns_header.drop 4).take 8) with
      | none => .error (st3, .structError)
      | some (qc, sc, ac, adc) =>
        .ok { st3 with question_count := qc, standard_count := sc,
                       authority_count := ac, additional_count := adc }

/-- `question_record_handler` (lines 84-97): splits the payload after
the header at the first zero byte, reads qtype/qclass from the next
four bytes, and cuts the payload into the question record and the
resource-record region. -/
def question_record_handlerM (st : ParserState) :
    Except (ParserState × PyError) ParserState :=
  let dns_payload := st.data.drop 12
  match splitFirst0 dns_payload with
  | (_, none) => .error (st, .indexError)
  | (qname, some rest) =>
    match unpack2H (rest.take 4) with
    | none => .error (st, .structError)
    | some (qt, qc) =>
      let st1 := { st with query_name := qname, qtype := qt, qclass := qc }
      let question_length := qname.length + 1 + 4
      .ok { st1 with question_record := dns_payload.take question_length,
                     resource_record := dns_payload.drop question_length }

/-- The record-name slice computed at the top of `get_record_type`
(lines 100-104): two bytes when the record starts with the
compression-pointer marker `0xc0`, else everything before the first
zero byte. -/
def record_name_of (data : List Nat) : List Nat :=
  if data.head? = some 192 then data.take 2 else (splitFirst0 data).1

/-- The name length `nlen` of `get_record_type` (lines 106-109): the
record-name length, plus one for the terminator pad when the name
holds no `0xc0` byte. -/
def nlenOf (data : List Nat) : Nat :=
  let rn := record_name_of data
  if 192 ∈ rn then rn.length else rn.length + 1

/-- `get_record_type` (lines 99-127).  Returns
`(state, record_type, record_length, record_ttl, nlen)`; the state
changes only by the diagnostic `{'rtype', 'nlen', 'data'}` handed to
`record_parse_error` when the type is not A/CNAME/SOA (in which case
`record_length = -1`).  The TTL read happens after the dispatch, so a
TTL `struct.error` still carries the recorded diagnostic. -/
def get_record_type (st : ParserState) (data : List Nat) :
    Except (ParserState × PyError) (ParserState × Nat × Int × Nat × Nat) :=
  let nlen := nlenOf data
  match unpack16 ((data.drop nlen).take 2) with
  | none => .error (st, .structError)
  | some record_type =>
    let branch : Except (ParserState × PyError) (ParserState × Int) :=
      if record_type = A_RECORD then
        .ok (st, (10 + 4 + nlen : Int))
      else if record_type = CNAME ∨ record_type = SOA then
        match unpack16 ((data.drop (nlen + 8)).take 2) with
        | none => .error (st, .structError)
        | some data_length => .ok (st, (10 + data_length + nlen : Int))
      else
        .ok ({ st with parse_errors := st.parse_errors ++ [(record_type, nlen, data)] },
             (-1 : Int))
    match branch with
    | .error e => .error e
    | .ok (st1, record_length) =>
      match unpack32 ((data.drop (nlen + 4)).take 4) with
      | none => .error (st1, .structError)
      | some record_ttl => .ok (st1, record_type, record_length, record_ttl, nlen)

/-- The slice `self.resource_record[self.offset:]` taken at the top of
each scan iteration (lines 137 and 148); `offset` can be negative. -/
def currentSlice (st : ParserState) : List Nat :=
  pyDrop st.resource_record st.offset

/-- Accessor for `standard_records` (the `getattr` on line 135). -/
def stdGet : ParserState → List RecordEntry := fun s => s.standard_records

/-- In-place append target for `standard_records` (line 142). -/
def stdSet : ParserState → List RecordEntry → ParserState :=
  fun s l => { s with standard_records := l }

/-- Accessor for `authority_records` (the `getattr` on line 135). -/
def authGet : ParserState → List RecordEntry := fun s => s.authority_records

/-- In-place append target for `authority_records` (line 142). -/
def authSet : ParserState → List RecordEntry → ParserState :=
  fun s l => { s with authority_records := l }

/-- The inner loop of `resource_record_handler` over one of the
standard/authority sections (lines 136-144): classify the record at
the current offset, slice it out with `data[:record_length]`, append
the `(type, ttl, nlen, slice)` tuple, advance the offset by
`record_length`, and iterate `count` times. -/
def rr_scan (getL : ParserState → List RecordEntry)
    (setL : ParserState → List RecordEntry → ParserState)
    (count : Nat) (st : ParserState) :
    Except (ParserState × PyError) ParserState :=
  match count with
  | 0 => .ok st
  | n + 1 =>
    let data := currentSlice st
    match get_record_type st data with
    | .error e => .error e
    | .ok (st1, record_type, record_length, record_ttl, nlen) =>
      let rr := pyTake data record_length
      let st2 := setL st1 (getL st1 ++ [⟨record_type, record_ttl, nlen, rr⟩])
      let st3 := { st2 with offset := st2.offset + record_length }
      rr_scan getL setL n st3

/-- The additional-section loop of `resource_record_handler`
(lines 147-153): peek the two bytes at `data[1:3]` as the type (the
result of `struct.unpack` is a 1-tuple, compared against the int
`OPT`), and append the whole remaining slice; the offset is never
advanced. -/
def additional_scan (count : Nat) (st : ParserState) :
    Except (ParserState × PyError) ParserState :=
  match count with
  | 0 => .ok st
  | n + 1 =>
    let data := currentSlice st
    match unpack16 ((data.drop 1).take 2) with
    | none => .error (st, .structError)
    | some t =>
      let st1 := if pyTupleEqInt [t] OPT then { st with dns_opt := true } else st
      let st2 := { st1 with additional_records := st1.additional_records ++ [data] }
      additional_scan n st2

/-- `resource_record_handler` (lines 131-153): scan the standard
section, then the authority section, then the additional section. -/
def resource_record_handlerM (st : ParserState) :
    Except (ParserState × PyError) ParserState := do
  let st1 ← rr_scan stdGet stdSet st.standard_count st
  let st2 ← rr_scan authGet authSet st1.authority_count st1
  additional_scan st2.additional_count st2

/-- The character-building loop of `get_qname` (lines 212-221): consume
`length` bytes as label characters, then read the next byte as the new
length and emit a dot. -/
def qnameLoop : List Nat → Nat → String → String
  | [], _, acc => acc
  | b :: rest, len, acc =>
    if len ≠ 0 then qnameLoop rest (len - 1) (acc.push (Char.ofNat b))
    else qnameLoop rest b (acc.push '.')

/-- `get_qname` (lines 207-227).  `struct.unpack('!{b}B', ...)` is the
identity on the byte list; `qname[0]` raises `IndexError` on an empty
name.  The `'.' in qname` test on line 224 compares the character
against the elements of the integer tuple and is therefore always
`False`, so `request2`/`request_tld` are never assigned; were the
branch entered, `qname.split('.')` would raise `AttributeError`
(a tuple has no `split`). -/
def get_qnameM (st : ParserState) : Except (ParserState × PyError) ParserState :=
  let qname := st.query_name
  match qname with
  | [] => .error (st, .indexError)
  | len0 :: rest =>
    let qname_raw := qnameLoop rest len0 ""
    let st1 := { st with request := pyLower qname_raw }
    if pyStrDotInIntTuple qname then .error (st1, .attributeError)
    else .ok st1

/-- The body of `parse` inside the `try` (lines 52-57). -/
def parseM (st : ParserState) : Except (ParserState × PyError) ParserState := do
  let st1 ← headerM st
  if st1.packet_type = DNS_QUERY ∨ st1.packet_type = DNS_RESPONSE then do
    let st2 ← question_record_handlerM st1
    let st3 ← get_qnameM st2
    if st3.packet_type = DNS_RESPONSE then resource_record_handlerM st3
    else pure st3
  else
    pure st1

/-- The `except Exception: traceback.print_exc()` of `parse`
(lines 59-60): the traceback goes to stderr (an external sink) and
execution continues with the object as it was at the throw. -/
def runOr : Except (ParserState × PyError) ParserState → ParserState
  | .ok st => st
  | .error (st, _) => st

/-- `parse` (lines 50-60): run the pipeline, swallowing any exception. -/
def parse (st : ParserState) : ParserState := runOr (parseM st)

/-- `ttl_rewrite` (lines 184-205): bump `a_record_count` for A records,
clamp the TTL into `[MINIMUM_TTL, DEFAULT_TTL]`, remember it as
`cache_ttl`, and splice the packed TTL over bytes
`[nlen+4, nlen+8)` of the record.  (`response_ttl` is accepted and
unused, as in the source.) -/
def ttl_rewrite (st : ParserState) (record_info : RecordEntry)
    (_response_ttl : Nat) : ParserState × List Nat :=
  let st1 := if record_info.rtype = A_RECORD then
               { st with a_record_count := st.a_record_count + 1 }
             else st
  let new_record_ttl :=
    if record_info.rttl < MINIMUM_TTL then MINIMUM_TTL
    else if record_info.rttl > DEFAULT_TTL then DEFAULT_TTL
    else record_info.rttl
  let st2 := { st1 with cache_ttl := new_record_ttl }
  (st2, record_info.rbytes.take (record_info.nlen + 4) ++ pack32 new_record_ttl
          ++ record_info.rbytes.drop (record_info.nlen + 8))

/-- The record-emission loop of `rewrite` (lines 157-164): a record is
emitted (TTL-rewritten and appended to the outgoing bytes) unless it
is an A record arriving after `MAX_A_RECORD_COUNT` A records have
already been emitted. -/
def rewriteLoop (st : ParserState) (records : List RecordEntry)
    (response_ttl : Nat) (acc : List Nat) : ParserState × List Nat :=
  match records with
  | [] => (st, acc)
  | r :: rest =>
    if r.rtype ≠ A_RECORD ∨ st.a_record_count < MAX_A_RECORD_COUNT then
      let p := ttl_rewrite st r response_ttl
      rewriteLoop p.1 rest response_ttl (acc ++ p.2)
    else
      rewriteLoop st rest response_ttl acc

/-- `rewrite` (lines 155-182): emit standard then authority records
through the capped loop, patch the header's answer count to the cap
when the emitted A count equals it, snapshot `data_to_cache` (answer
count zeroed, no additional records), append the additional records
unmodified, substitute the caller's dns id when it is truthy
(Python `if (dns_id):` — `None` and `0` are both falsy), and append
the assembled message to `send_data`. -/
def rewrite (st : ParserState) (dns_id : Option Nat) (response_ttl : Nat) :
    ParserState :=
  let p1 := rewriteLoop st st.standard_records response_ttl []
  let p2 := rewriteLoop p1.1 p1.1.authority_records response_ttl p1.2
  let st1 := p2.1
  let resource_record := p2.2
  let st2 := if st1.a_record_count = MAX_A_RECORD_COUNT then
               { st1 with dns_header := st1.dns_header.take 6
                            ++ pack16 MAX_A_RECORD_COUNT
                            ++ st1.dns_header.drop 8 }
             else st1
  let st3 := { st2 with data_to_cache := st2.dns_header.take 10 ++ [0, 0]
                          ++ st2.question_record ++ resource_record }
  let resource_record := resource_record ++ st3.additional_records.flatten
  let st4 := match dns_id with
    | some i => if i ≠ 0 then
                  { st3 with dns_header := pack16 i ++ st3.dns_header.drop 2 }
                else st3
    | none => st3
  { st4 with send_data := st4.send_data ++ st4.dns_header
               ++ st4.question_record ++ resource_record }

/-- `udp_to_tls` (lines 241-246): 2-byte big-endian length of the
current buffer, the caller's 2-byte transaction id, then the buffer
with its own first two (id) bytes dropped.  Faithful for buffer
lengths and ids below `2^16` (Python raises `struct.error` beyond). -/
def udp_to_tls (st : ParserState) (dns_id : Nat) : List Nat :=
  pack16 st.data.length ++ pack16 dns_id ++ st.data.drop 2

/-! ### Specification helpers

Plain functions used to state properties of the loops above. -/

/-- The bytes `ttl_rewrite` produces for one record (its pure output,
independent of the object state). -/
def recBytes (r : RecordEntry) : List Nat :=
  r.rbytes.take (r.nlen + 4) ++
    pack32 (if r.rttl < MINIMUM_TTL then MINIMUM_TTL
            else if r.rttl > DEFAULT_TTL then DEFAULT_TTL
            else r.rttl) ++
    r.rbytes.drop (r.nlen + 8)

/-- The subsequence of records the rewrite loop emits when the emitted
A-record counter starts at `c`: a record passes unless it is an A
record arriving once `MAX_A_RECORD_COUNT` A records have passed. -/
def emitted (c : Nat) : List RecordEntry → List RecordEntry
  | [] => []
  | r :: rest =>
    if r.rtype ≠ A_RECORD ∨ c < MAX_A_RECORD_COUNT then
      r :: emitted (if r.rtype = A_RECORD then c + 1 else c) rest
    else
      emitted c rest

/-- Number of A-type records in a list. -/
def countA (l : List RecordEntry) : Nat :=
  (l.filter fun r => r.rtype == A_RECORD).length

/-! ### Concrete packets used by the witnesses and counterexamples -/

/-- Question name `www.micro.com` as length-prefixed label bytes
(`\x03www\x05micro\x03com`, terminator already split off). -/
def qnameWmc : List Nat := [3, 119, 119, 119, 5, 109, 105, 99, 114, 111, 3, 99, 111, 109]

/-- State after parsing a question for `www.micro.com`. -/
def stC3 : ParserState := { init [] 17 with query_name := qnameWmc }

/-- A concrete A record: compression-pointer name, type 1, class 1,
TTL 60, rdlength 4, one IPv4 address. -/
def dataA1 : List Nat := [192, 12, 0, 1, 0, 1, 0, 0, 0, 60, 0, 4, 1, 2, 3, 4]

/-- A record region holding a TXT record (type 16, unsupported)
followed by an A record. -/
def regionC4 : List Nat :=
  [192, 12, 0, 16, 0, 1, 0, 0, 0, 60, 0, 4, 1, 2, 3, 4] ++
  [192, 12, 0, 1, 0, 1, 0, 0, 0, 60, 0, 4, 9, 9, 9, 9]

/-- State about to scan a standard section declared to hold two
records, the first of unsupported type. -/
def stC4 : ParserState :=
  { init [] 17 with resource_record := regionC4, standard_count := 2 }

/-- A concrete OPT additional record: root name, type 41, UDP size
4096, no options. -/
def optRecC5 : List Nat := [0, 0, 41, 16, 0, 0, 0, 0, 0, 0, 0]

/-- State about to scan one additional record (an OPT record). -/
def stC5 : ParserState :=
  { init [] 17 with
      resource_record := optRecC5, additional_count := 1,
      dns_header := [0, 1, 129, 128, 0, 1, 0, 0, 0, 0, 0, 1],
      question_record := [3, 97, 98, 99, 0, 0, 1, 0, 1] }

/-- An A record entry as the scanner stores it (TTL 100, pointer name). -/
def aRec (v : Nat) : RecordEntry :=
  ⟨1, 100, 2, [192, 12, 0, 1, 0, 1, 0, 0, 0, 100, 0, 4, v, v, v, v]⟩

/-- A CNAME record entry as the scanner stores it (TTL 7200). -/
def cnRec : RecordEntry :=
  ⟨5, 7200, 2, [192, 12, 0, 5, 0, 1, 0, 0, 28, 32, 0, 2, 192, 12]⟩

/-- Parsed response carrying four A records and one CNAME in the
standard section (declared answer count 5). -/
def stC2 : ParserState :=
  { init [] 17 with
      dns_header := [0, 1, 129, 128, 0, 1, 0, 5, 0, 0, 0, 0],
      question_record := [3, 97, 98, 99, 0, 0, 1, 0, 1],
      standard_records := [aRec 1, cnRec, aRec 2, aRec 3, aRec 4] }

/-- Parsed response with exactly three A records, split one in the
standard section (declared answer count 1) and two in the authority
section: nothing is dropped by the cap. -/
def stC8 : ParserState :=
  { init [] 17 with
      dns_header := [0, 0, 128, 0, 0, 1, 0, 1, 0, 2, 0, 0],
      standard_records := [aRec 1],
      authority_records := [aRec 2, aRec 3] }

/-! ### Basic lemmas -/

theorem pack16_length (n : Nat) : (pack16 n).length = 2 := rfl

theorem pack32_length (n : Nat) : (pack32 n).length = 4 := rfl

theorem pack16_bytes (a b : Nat) (ha : a < 256) (hb : b < 256) :
    pack16 (a * 256 + b) = [a, b] := by
  simp only [pack16, List.cons.injEq, and_true]
  omega

theorem drop_append_len (l1 l2 : List Nat) (n : Nat) (h : l1.length = n) :
    (l1 ++ l2).drop n = l2 := by
  subst h; exact List.drop_left l1 l2

theorem take_append_len (l1 l2 : List Nat) (n : Nat) (h : l1.length = n) :
    (l1 ++ l2).take n = l1 := by
  subst h; exact List.take_left l1 l2

theorem ttl_rewrite_fst (st : ParserState) (r : RecordEntry) (rtl : Nat) :
    (ttl_rewrite st r rtl).1 =
      { st with
          a_record_count :=
            if r.rtype = A_RECORD then st.a_record_count + 1
            else st.a_record_count,
          cache_ttl :=
            if r.rttl < MINIMUM_TTL then MINIMUM_TTL
            else if r.rttl > DEFAULT_TTL then DEFAULT_TTL
            else r.rttl } := by
  by_cases h : r.rtype = A_RECORD <;> simp [ttl_rewrite, h]

theorem ttl_rewrite_snd (st : ParserState) (r : RecordEntry) (rtl : Nat) :
    (ttl_rewrite st r rtl).2 = recBytes r := by
  by_cases h : r.rtype = A_RECORD <;> simp [ttl_rewrite, recBytes, h]

/-! ### C1: TTL clamp -/

/-- C1: for every standard/authority record with declared 32-bit TTL
`t`, the TTL field the rewriter writes into the output record (the
four bytes at offset `nlen + 4`) holds `300` when `t < 300`, `3600`
when `t > 3600`, and `t` unchanged otherwise. -/
theorem c1_ttl_clamp (st : ParserState) (rt t nlen : Nat) (record : List Nat)
    (rtl : Nat) (ht : t < 2 ^ 32) (hr : nlen + 4 ≤ record.length) :
    (((ttl_rewrite st ⟨rt, t, nlen, record⟩ rtl).2).drop (nlen + 4)).take 4 =
      pack32 (if t < 300 then 300 else if t > 3600 then 3600 else t) := by
  rw [ttl_rewrite_snd]
  have h1 : (record.take (nlen + 4)).length = nlen + 4 := by
    simp only [List.length_take]
    omega
  simp only [recBytes, MINIMUM_TTL, DEFAULT_TTL]
  rw [List.append_assoc, drop_append_len _ _ _ h1,
    take_append_len _ _ _ (pack32_length _)]

/-- Witness for `c1_ttl_clamp`: TTL 100 is written back as 300. -/
theorem c1_ttl_clamp_witness :
    (((ttl_rewrite (init [] 17) ⟨1, 100, 2, dataA1⟩ 3600).2).drop 6).take 4 =
      pack32 300 := by
  have h := c1_ttl_clamp (init [] 17) 1 100 2 dataA1 3600 (by norm_num) (by decide)
  norm_num at h
  exact h

/-! ### C3: registrable domain / TLD derivation -/

/-- C3: the claim fails on the code.  For the question name
`www.micro.com` the decoded lowercase name is produced, but
`request2` (the registrable domain the claim promises as
`micro.com`) and `request_tld` (`.com`) are never assigned: line 224
tests `'.' in qname` against the tuple of integer byte values, which
is always false (and were it entered, line 225 would raise
`AttributeError` on `tuple.split`). -/
theorem c3_registrable_domain_not_derived :
    get_qnameM stC3 = .ok { stC3 with request := "www.micro.com" } ∧
    (runOr (get_qnameM stC3)).request2 = none ∧
    (runOr (get_qnameM stC3)).request_tld = none := by
  exact ⟨rfl, rfl, rfl⟩

/-! ### C5: OPT detection and pass-through -/

/-- C5: the pass-through half of the claim holds but the flag half
fails.  Scanning a response whose single additional record is an OPT
record leaves `dns_opt` false — line 149 omits the `[0]` index, so
the 1-tuple returned by `struct.unpack` is compared against the int
41 and never equal — while the OPT bytes do appear byte-for-byte in
the rewritten output after the (here empty) standard/authority
records. -/
theorem c5_opt_flag_not_set :
    resource_record_handlerM stC5 =
      .ok { stC5 with additional_records := [optRecC5] } ∧
    (runOr (resource_record_handlerM stC5)).dns_opt = false ∧
    (rewrite (runOr (resource_record_handlerM stC5)) none 3600).send_data =
      stC5.dns_header ++ stC5.question_record ++ optRecC5 := by
  exact ⟨rfl, rfl, rfl⟩

/-! ### C7: record length computation -/

/-- C7 counterexample: for a concrete A record (pointer name, so
`nlen = 2`) the computed record length is 16 = `nlen + 14`, not
`nlen + 10 = 12` as the claim states. -/
theorem c7_counterexample :
    get_record_type (init [] 17) dataA1 = .ok (init [] 17, 1, 16, 60, 2) ∧
    (16 : Int) ≠ (2 : Int) + 10 := by
  exact ⟨rfl, by decide⟩

/-- C7 amended: for an A-type record the scanner computes
`record_length = nlen + 14` (the source's `10 + 4 + nlen`: ten fixed
bytes plus the fixed 4-byte address data, not a zero data length);
for CNAME/SOA it is `nlen + 10 + dataLength` with `dataLength` the
declared 16-bit field read at offset `nlen + 8`. -/
theorem c7_record_length (st : ParserState) (data : List Nat) (ttl : Nat)
    (httl : unpack32 ((data.drop (nlenOf data + 4)).take 4) = some ttl) :
    (unpack16 ((data.drop (nlenOf data)).take 2) = some A_RECORD →
       get_record_type st data =
         .ok (st, A_RECORD, (nlenOf data : Int) + 14, ttl, nlenOf data)) ∧
    (∀ rt dl, (rt = CNAME ∨ rt = SOA) →
       unpack16 ((data.drop (nlenOf data)).take 2) = some rt →
       unpack16 ((data.drop (nlenOf data + 8)).take 2) = some dl →
       get_record_type st data =
         .ok (st, rt, (nlenOf data : Int) + 10 + dl, ttl, nlenOf data)) := by
  have harithA : (10 + 4 + (nlenOf data : Int)) = (nlenOf data : Int) + 14 := by
    omega
  constructor
  · intro h
    simp [get_record_type, h, httl, harithA]
    omega
  · intro rt dl hcs h hdl
    have hna : rt ≠ A_RECORD := by
      rcases hcs with h5 | h6 <;> subst_vars <;> decide
    have harithC : (10 + (dl : Int) + (nlenOf data : Int)) =
        (nlenOf data : Int) + 10 + dl := by omega
    simp [get_record_type, h, hna, hcs, hdl, httl, harithC]

/-- Witness for `c7_record_length` at the concrete A record. -/
theorem c7_record_length_witness :
    get_record_type (init [] 17) dataA1 =
      .ok (init [] 17, A_RECORD, (nlenOf dataA1 : Int) + 14, 60, nlenOf dataA1) :=
  (c7_record_length (init [] 17) dataA1 60 (by decide)).1 (by decide)

/-! ### C9: stream framing round trip -/

/-- C9: for a stream-framed buffer whose 2-byte big-endian length
prefix equals the length of the body after it, stripping the prefix
(TCP `__init__`) and re-framing via `udp_to_tls` with the message's
own transaction id reproduces the buffer exactly. -/
theorem c9_framing_roundtrip (p body : List Nat) (i : Nat)
    (hp : p.length = 2)
    (hpb : ∀ b ∈ p, b < 256) (hbb : ∀ b ∈ body.take 2, b < 256)
    (hlen : unpack16 p = some body.length)
    (h2 : 2 ≤ body.length)
    (hid : get_dns_id (init (p ++ body) TCP) = some i) :
    udp_to_tls (init (p ++ body) TCP) i = p ++ body := by
  obtain ⟨p0, p1, rfl⟩ := List.length_eq_two.mp hp
  rcases body with _ | ⟨b0, _ | ⟨b1, rest⟩⟩
  · simp at h2
  · simp at h2
  · have hinit : init ([p0, p1] ++ (b0 :: b1 :: rest)) TCP =
        { data := b0 :: b1 :: rest } := by
      simp [init, TCP, UDP]
    rw [hinit] at hid ⊢
    simp only [get_dns_id, List.take_succ_cons, List.take_zero, unpack16,
      Option.some.injEq] at hid hbb hlen
    simp only [udp_to_tls]
    subst hid
    have hb0 : b0 < 256 := hbb b0 (by simp)
    have hb1 : b1 < 256 := hbb b1 (by simp)
    have hp0 : p0 < 256 := hpb p0 (by simp)
    have hp1 : p1 < 256 := hpb p1 (by simp)
    rw [pack16_bytes b0 b1 hb0 hb1]
    rw [show (b0 :: b1 :: rest).length = p0 * 256 + p1 from hlen.symm]
    rw [pack16_bytes p0 p1 hp0 hp1]
    simp

/-- Witness for `c9_framing_roundtrip` on a 4-byte body. -/
theorem c9_framing_roundtrip_witness :
    udp_to_tls (init ([0, 4] ++ [0, 1, 2, 3]) TCP) 1 = [0, 4] ++ [0, 1, 2, 3] :=
  c9_framing_roundtrip [0, 4] [0, 1, 2, 3] 1 rfl (by decide) (by decide)
    (by decide) (by decide) (by decide)

/-! ### C6: short-header handling -/

theorem parse_of_header_error (st st2 : ParserState) (e : PyError)
    (h : headerM st = .error (st2, e)) : parse st = st2 := by
  unfold parse parseM
  rw [h]
  rfl

/-- C6 amended: for every input buffer shorter than 12 bytes header
decoding does fail — the `struct.unpack`/index operations raise (there
is no `MalformedHeader` type in the code) — but the failure is not
surfaced to the caller: `parse` catches every exception, prints a
traceback, and returns normally with the object in its
partially-assigned state (for the empty buffer that is the
`__init__` defaults, transaction id 0 and a zero-length header
slice). -/
theorem c6_short_header_swallowed (st : ParserState) (h : st.data.length < 12) :
    ∃ st2 e, headerM st = Except.error (st2, e) ∧ parse st = st2 := by
  have hmain : ∃ st2 e, headerM st = Except.error (st2, e) := by
    obtain ⟨data, a1, a2, a3, a4, a5, a6, a7, a8, a9, a10, a11, a12, a13, a14,
      a15, a16, a17, a18, a19, a20, a21, a22, a23, a24, a25, a26, a27, a28,
      a29, a30⟩ := st
    dsimp only at h
    rcases data with _ | ⟨b0, _ | ⟨b1, _ | ⟨b2, _ | ⟨b3, _ | ⟨b4, _ | ⟨b5,
      _ | ⟨b6, _ | ⟨b7, _ | ⟨b8, _ | ⟨b9, _ | ⟨b10, tl⟩⟩⟩⟩⟩⟩⟩⟩⟩⟩⟩
    · exact ⟨_, _, rfl⟩
    · exact ⟨_, _, rfl⟩
    · exact ⟨_, _, rfl⟩
    · by_cases h5 : (b2 &&& 128) = 0 <;> simp [headerM, unpack16, unpack4H, h5]
    · by_cases h5 : (b2 &&& 128) = 0 <;> simp [headerM, unpack16, unpack4H, h5]
    · by_cases h5 : (b2 &&& 128) = 0 <;> simp [headerM, unpack16, unpack4H, h5]
    · by_cases h5 : (b2 &&& 128) = 0 <;> simp [headerM, unpack16, unpack4H, h5]
    · by_cases h5 : (b2 &&& 128) = 0 <;> simp [headerM, unpack16, unpack4H, h5]
    · by_cases h5 : (b2 &&& 128) = 0 <;> simp [headerM, unpack16, unpack4H, h5]
    · by_cases h5 : (b2 &&& 128) = 0 <;> simp [headerM, unpack16, unpack4H, h5]
    · by_cases h5 : (b2 &&& 128) = 0 <;> simp [headerM, unpack16, unpack4H, h5]
    · rcases tl with _ | ⟨b11, tl2⟩
      · by_cases h5 : (b2 &&& 128) = 0 <;> simp [headerM, unpack16, unpack4H, h5]
      · simp at h
        omega
  obtain ⟨st2, e, he⟩ := hmain
  exact ⟨st2, e, he, parse_of_header_error st st2 e he⟩

/-- Witness for `c6_short_header_swallowed` on the empty buffer. -/
theorem c6_short_header_swallowed_witness :
    ∃ st2 e, headerM (init [] 17) = Except.error (st2, e) ∧
      parse (init [] 17) = st2 :=
  c6_short_header_swallowed (init [] 17) (by decide)

/-- C6 counterexample: on the empty buffer header decoding fails, yet
`parse` returns normally, the object unchanged — the transaction id
keeps its `__init__` default 0, `dns_header` is a zero-length slice,
and nothing signals the failure to the caller, contradicting
"surfaced to the caller ... never silently swallowed into zero-length
or default field values". -/
theorem c6_counterexample :
    (headerM (init [] 17)).isOk = false ∧
    parse (init [] 17) = init [] 17 ∧
    (parse (init [] 17)).dns_id = 0 := by
  exact ⟨rfl, rfl, rfl⟩

/-! ### C4: unknown record types -/

/-- C4 counterexample: scanning a standard section declared to hold
two records whose first has unsupported type 16 does record the
diagnostic and signal length `-1`, but it does not abort the
section scan: the `data[:-1]` slice (the whole region minus its last
byte) is appended as a "parsed" record, the offset moves to `-1`, and
the next iteration parses at that garbage offset (a 1-byte slice),
where the 16-bit type read raises `struct.error`. -/
theorem c4_counterexample :
    (resource_record_handlerM stC4).isOk = false ∧
    runOr (resource_record_handlerM stC4) =
      { stC4 with
          offset := -1,
          standard_records := [⟨16, 60, 2, pyTake regionC4 (-1)⟩],
          parse_errors := [(16, 2, regionC4)] } := by
  exact ⟨rfl, rfl⟩

/-- C4 amended: when record-type dispatch meets a type outside
{A, CNAME, SOA}, the scanner records the diagnostic
`(type, nlen, slice)` and computes record length `-1`; the section
scan does not abort — the `data[:-1]` slice is appended as that
record's bytes, the section offset decreases by one, and the loop
proceeds to its next iteration at the garbage offset. -/
theorem c4_unknown_type_scan_continues (st : ParserState) (n rt ttl : Nat)
    (hrt : unpack16 (((currentSlice st).drop (nlenOf (currentSlice st))).take 2) =
      some rt)
    (hna : rt ≠ A_RECORD) (hnc : rt ≠ CNAME) (hns : rt ≠ SOA)
    (httl : unpack32 (((currentSlice st).drop (nlenOf (currentSlice st) + 4)).take 4) =
      some ttl) :
    rr_scan stdGet stdSet (n + 1) st =
      rr_scan stdGet stdSet n
        { st with
            parse_errors :=
              st.parse_errors ++ [(rt, nlenOf (currentSlice st), currentSlice st)],
            standard_records :=
              st.standard_records ++
                [⟨rt, ttl, nlenOf (currentSlice st), pyTake (currentSlice st) (-1)⟩],
            offset := st.offset + (-1) } := by
  have hcs : ¬(rt = CNAME ∨ rt = SOA) := by
    intro hc
    exact hc.elim hnc hns
  simp only [rr_scan, get_record_type, hrt, if_neg hna, if_neg hcs, httl,
    stdGet, stdSet]

/-- Witness for `c4_unknown_type_scan_continues` at the concrete
two-record section. -/
theorem c4_unknown_type_scan_continues_witness :
    rr_scan stdGet stdSet 2 stC4 =
      rr_scan stdGet stdSet 1
        { stC4 with
            parse_errors := [(16, 2, regionC4)],
            standard_records := [⟨16, 60, 2, pyTake regionC4 (-1)⟩],
            offset := -1 } := by
  exact c4_unknown_type_scan_continues stC4 1 16 60 (by decide) (by decide)
    (by decide) (by decide) (by decide)

/-! ### Rewrite-loop lemmas -/

theorem countA_cons (r : RecordEntry) (l : List RecordEntry) :
    countA (r :: l) = (if r.rtype = A_RECORD then 1 else 0) + countA l := by
  by_cases h : r.rtype = A_RECORD <;>
    simp [countA, h, List.filter_cons] <;> omega

theorem countA_append (l1 l2 : List RecordEntry) :
    countA (l1 ++ l2) = countA l1 + countA l2 := by
  simp [countA, List.filter_append]

theorem emitted_cons_keep (c : Nat) (r : RecordEntry) (rest : List RecordEntry)
    (h : r.rtype ≠ A_RECORD ∨ c < MAX_A_RECORD_COUNT) :
    emitted c (r :: rest) =
      r :: emitted (if r.rtype = A_RECORD then c + 1 else c) rest := by
  simp only [emitted, if_pos h]

theorem emitted_cons_skip (c : Nat) (r : RecordEntry) (rest : List RecordEntry)
    (h : ¬(r.rtype ≠ A_RECORD ∨ c < MAX_A_RECORD_COUNT)) :
    emitted c (r :: rest) = emitted c rest := by
  simp only [emitted, if_neg h]

theorem emitted_append (l1 l2 : List RecordEntry) (c : Nat) :
    emitted c (l1 ++ l2) =
      emitted c l1 ++ emitted (c + countA (emitted c l1)) l2 := by
  induction l1 generalizing c with
  | nil => simp [emitted, countA]
  | cons r rest ih =>
    rw [List.cons_append]
    by_cases hc : r.rtype ≠ A_RECORD ∨ c < MAX_A_RECORD_COUNT
    · have hstep : ∀ x : List RecordEntry,
          (if r.rtype = A_RECORD then c + 1 else c) + countA x =
            c + countA (r :: x) := by
        intro x
        rw [countA_cons]
        by_cases ha : r.rtype = A_RECORD <;> simp [ha] <;> omega
      rw [emitted_cons_keep c r (rest ++ l2) hc, emitted_cons_keep c r rest hc,
        ih, hstep, List.cons_append]
    · rw [emitted_cons_skip c r (rest ++ l2) hc, emitted_cons_skip c r rest hc,
        ih]

theorem countA_emitted (records : List RecordEntry) (c : Nat)
    (hc : c ≤ MAX_A_RECORD_COUNT) :
    countA (emitted c records) =
      min (MAX_A_RECORD_COUNT - c) (countA records) := by
  have hmax : MAX_A_RECORD_COUNT = 3 := rfl
  induction records generalizing c with
  | nil => simp [emitted, countA]
  | cons r rest ih =>
    by_cases ha : r.rtype = A_RECORD
    · by_cases hlt : c < MAX_A_RECORD_COUNT
      · rw [emitted_cons_keep c r rest (Or.inr hlt), if_pos ha, countA_cons,
          countA_cons, if_pos ha, ih (c + 1) hlt]
        rw [hmax] at hlt ⊢
        omega
      · have hno : ¬(r.rtype ≠ A_RECORD ∨ c < MAX_A_RECORD_COUNT) :=
          fun hor => hor.elim (fun hne => hne ha) hlt
        rw [emitted_cons_skip c r rest hno, countA_cons, if_pos ha, ih c hc]
        rw [hmax] at hc hlt ⊢
        omega
    · rw [emitted_cons_keep c r rest (Or.inl ha), if_neg ha, countA_cons,
        countA_cons, if_neg ha, ih c hc]
      omega

theorem emitted_filter_nonA (records : List RecordEntry) (c : Nat) :
    (emitted c records).filter (fun r => r.rtype != A_RECORD) =
      records.filter (fun r => r.rtype != A_RECORD) := by
  induction records generalizing c with
  | nil => simp [emitted]
  | cons r rest ih =>
    by_cases ha : r.rtype = A_RECORD
    · by_cases hlt : c < MAX_A_RECORD_COUNT
      · rw [emitted_cons_keep c r rest (Or.inr hlt), if_pos ha]
        simp [List.filter_cons, ha, ih]
      · have hno : ¬(r.rtype ≠ A_RECORD ∨ c < MAX_A_RECORD_COUNT) :=
          fun hor => hor.elim (fun hne => hne ha) hlt
        rw [emitted_cons_skip c r rest hno, ih]
        simp [List.filter_cons, ha]
    · rw [emitted_cons_keep c r rest (Or.inl ha), if_neg ha]
      simp [List.filter_cons, ha, ih]

theorem rewriteLoop_state (records : List RecordEntry) (st : ParserState)
    (rtl : Nat) (acc : List Nat) :
    (rewriteLoop st records rtl acc).1.dns_header = st.dns_header ∧
    (rewriteLoop st records rtl acc).1.question_record = st.question_record ∧
    (rewriteLoop st records rtl acc).1.additional_records =
      st.additional_records ∧
    (rewriteLoop st records rtl acc).1.send_data = st.send_data ∧
    (rewriteLoop st records rtl acc).1.authority_records =
      st.authority_records ∧
    (rewriteLoop st records rtl acc).1.standard_records =
      st.standard_records := by
  induction records generalizing st acc with
  | nil => simp [rewriteLoop]
  | cons r rest ih =>
    by_cases hc : r.rtype ≠ A_RECORD ∨ st.a_record_count < MAX_A_RECORD_COUNT
    · simp [rewriteLoop, hc, ih, ttl_rewrite_fst]
    · simp [rewriteLoop, hc, ih]

theorem rewriteLoop_count (records : List RecordEntry) (st : ParserState)
    (rtl : Nat) (acc : List Nat) :
    (rewriteLoop st records rtl acc).1.a_record_count =
      st.a_record_count + countA (emitted st.a_record_count records) := by
  induction records generalizing st acc with
  | nil => simp [rewriteLoop, emitted, countA]
  | cons r rest ih =>
    by_cases ha : r.rtype = A_RECORD
    · by_cases hlt : st.a_record_count < MAX_A_RECORD_COUNT
      · simp [rewriteLoop, ha, hlt, emitted, countA_cons, ih, ttl_rewrite_fst]
        omega
      · have hno : ¬(r.rtype ≠ A_RECORD ∨ st.a_record_count < MAX_A_RECORD_COUNT) := by
          intro hor
          exact hor.elim (fun hne => hne ha) hlt
        simp [rewriteLoop, if_neg hno, ha, hlt, emitted, ih]
    · simp [rewriteLoop, ha, emitted, countA_cons, ih, ttl_rewrite_fst]

theorem rewriteLoop_bytes (records : List RecordEntry) (st : ParserState)
    (rtl : Nat) (acc : List Nat) :
    (rewriteLoop st records rtl acc).2 =
      acc ++ ((emitted st.a_record_count records).map recBytes).flatten := by
  induction records generalizing st acc with
  | nil => simp [rewriteLoop, emitted]
  | cons r rest ih =>
    by_cases ha : r.rtype = A_RECORD
    · by_cases hlt : st.a_record_count < MAX_A_RECORD_COUNT
      · simp [rewriteLoop, ha, hlt, emitted, ih, ttl_rewrite_fst,
          ttl_rewrite_snd, List.append_assoc]
      · have hno : ¬(r.rtype ≠ A_RECORD ∨ st.a_record_count < MAX_A_RECORD_COUNT) := by
          intro hor
          exact hor.elim (fun hne => hne ha) hlt
        simp [rewriteLoop, if_neg hno, ha, hlt, emitted, ih]
    · simp [rewriteLoop, ha, emitted, ih, ttl_rewrite_fst, ttl_rewrite_snd,
        List.append_assoc]

/-- Characterization of `rewrite` with no caller-supplied dns id, for a
freshly parsed state (`a_record_count = 0`): the output header is the
input header, answer count patched to the cap exactly when the emitted
A count equals the cap; `send_data` is the header, the question, the
emitted records' rewritten bytes, and the additional records. -/
theorem rewrite_none_spec (st : ParserState) (rtl : Nat)
    (h0 : st.a_record_count = 0) :
    (DnsRelay.rewrite st none rtl).dns_header =
      (if countA (emitted 0 (st.standard_records ++ st.authority_records)) =
          MAX_A_RECORD_COUNT then
        st.dns_header.take 6 ++ pack16 MAX_A_RECORD_COUNT ++
          st.dns_header.drop 8
      else st.dns_header) ∧
    (DnsRelay.rewrite st none rtl).send_data =
      st.send_data ++ (DnsRelay.rewrite st none rtl).dns_header ++
        st.question_record ++
        ((emitted 0 (st.standard_records ++ st.authority_records)).map
          recBytes).flatten ++
        st.additional_records.flatten := by
  obtain ⟨hh1, hq1, had1, hs1, hau1, hst1⟩ :=
    rewriteLoop_state st.standard_records st rtl []
  have hc1 := rewriteLoop_count st.standard_records st rtl []
  have hb1 := rewriteLoop_bytes st.standard_records st rtl []
  obtain ⟨hh2, hq2, had2, hs2, hau2, hst2⟩ :=
    rewriteLoop_state (rewriteLoop st st.standard_records rtl []).1.authority_records
      (rewriteLoop st st.standard_records rtl []).1 rtl
      (rewriteLoop st st.standard_records rtl []).2
  have hc2 := rewriteLoop_count
    (rewriteLoop st st.standard_records rtl []).1.authority_records
    (rewriteLoop st st.standard_records rtl []).1 rtl
    (rewriteLoop st st.standard_records rtl []).2
  have hb2 := rewriteLoop_bytes
    (rewriteLoop st st.standard_records rtl []).1.authority_records
    (rewriteLoop st st.standard_records rtl []).1 rtl
    (rewriteLoop st st.standard_records rtl []).2
  rw [hau1] at hh2 hq2 had2 hs2 hc2 hb2
  rw [hc1, h0, Nat.zero_add] at hc2 hb2
  have hcount : (rewriteLoop (rewriteLoop st st.standard_records rtl []).1
      st.authority_records rtl
      (rewriteLoop st st.standard_records rtl []).2).1.a_record_count =
      countA (emitted 0 (st.standard_records ++ st.authority_records)) := by
    rw [emitted_append, countA_append, Nat.zero_add]
    exact hc2
  have hbytes : (rewriteLoop (rewriteLoop st st.standard_records rtl []).1
      st.authority_records rtl
      (rewriteLoop st st.standard_records rtl []).2).2 =
      ((emitted 0 (st.standard_records ++ st.authority_records)).map
        recBytes).flatten := by
    rw [hb2, hb1, h0, List.nil_append, emitted_append, Nat.zero_add,
      List.map_append, List.flatten_append]
  by_cases hcap : countA (emitted 0 (st.standard_records ++ st.authority_records)) =
      MAX_A_RECORD_COUNT <;>
    simp [DnsRelay.rewrite, hau1, hcount, hbytes, hh2, hh1, hq2, hq1,
      had2, had1, hs2, hs1, hcap, List.append_assoc]

/-! ### C2: the A-record cap -/

/-- C2: for a parsed response whose standard+authority sections hold
`k > 3` A-type records, the rewritten output contains exactly 3 A
records — the emitted subsequence has A-count 3 and the output is
exactly the emitted records' rewritten bytes — every non-A record is
retained regardless of preceding A records, and the output header's
answer-count field (bytes 6-7) equals 3. -/
theorem c2_a_record_cap (st : ParserState) (rtl : Nat)
    (h0 : st.a_record_count = 0) (hh : st.dns_header.length = 12)
    (hsend : st.send_data = [])
    (hk : 3 < countA (st.standard_records ++ st.authority_records)) :
    countA (emitted 0 (st.standard_records ++ st.authority_records)) = 3 ∧
    (emitted 0 (st.standard_records ++ st.authority_records)).filter
        (fun r => r.rtype != A_RECORD) =
      (st.standard_records ++ st.authority_records).filter
        (fun r => r.rtype != A_RECORD) ∧
    (DnsRelay.rewrite st none rtl).send_data =
      (DnsRelay.rewrite st none rtl).dns_header ++ st.question_record ++
        ((emitted 0 (st.standard_records ++ st.authority_records)).map
          recBytes).flatten ++
        st.additional_records.flatten ∧
    ((DnsRelay.rewrite st none rtl).dns_header.drop 6).take 2 = pack16 3 := by
  obtain ⟨hhd, hsd⟩ := rewrite_none_spec st rtl h0
  have hmax : MAX_A_RECORD_COUNT = 3 := rfl
  have hcA : countA (emitted 0 (st.standard_records ++ st.authority_records)) =
      3 := by
    rw [countA_emitted _ 0 (by omega), hmax]
    omega
  refine ⟨hcA, emitted_filter_nonA _ _, ?_, ?_⟩
  · rw [hsd, hsend]
    simp [List.append_assoc]
  · rw [hhd, if_pos (by rw [hcA, hmax])]
    have h6 : (st.dns_header.take 6).length = 6 := by
      rw [List.length_take, hh]
      rfl
    rw [List.append_assoc, drop_append_len _ _ 6 h6,
      take_append_len _ _ 2 (pack16_length _)]
    rfl

/-- Witness for `c2_a_record_cap` at a response carrying four A
records and one CNAME. -/
theorem c2_a_record_cap_witness :
    ((DnsRelay.rewrite stC2 none 3600).dns_header.drop 6).take 2 = pack16 3 :=
  (c2_a_record_cap stC2 3600 rfl rfl rfl (by decide)).2.2.2

/-! ### C8: the header answer-count patch -/

/-- C8 counterexample: for a response with exactly 3 A records split
between the standard section (declared answer count 1) and the
authority section, nothing is dropped — the emitted subsequence is the
whole record list — yet the answer-count field is overwritten from 1
to 3, so "messages where no A record is dropped keep their original
answer count" fails. -/
theorem c8_counterexample :
    emitted 0 (stC8.standard_records ++ stC8.authority_records) =
      stC8.standard_records ++ stC8.authority_records ∧
    ((DnsRelay.rewrite stC8 none 3600).dns_header.drop 6).take 2 = [0, 3] ∧
    (stC8.dns_header.drop 6).take 2 = [0, 1] := by
  exact ⟨rfl, rfl, rfl⟩

/-- C8 amended: the rewriter patches the answer-count field with the
cap exactly when the emitted A-record count equals the cap — which
happens whenever at least 3 A records are present, including exactly 3
with nothing dropped (so such messages get answer count 3 even when
their original count differed); messages with fewer than 3 A records
keep the header unchanged; bytes 0-5 and 8-11 (id, flags, question,
authority and additional counts) are never patched. -/
theorem c8_header_patch (st : ParserState) (rtl : Nat)
    (h0 : st.a_record_count = 0) (hh : st.dns_header.length = 12) :
    (DnsRelay.rewrite st none rtl).dns_header.drop 8 =
      st.dns_header.drop 8 ∧
    (DnsRelay.rewrite st none rtl).dns_header.take 6 =
      st.dns_header.take 6 ∧
    (3 ≤ countA (st.standard_records ++ st.authority_records) →
      ((DnsRelay.rewrite st none rtl).dns_header.drop 6).take 2 = pack16 3) ∧
    (countA (st.standard_records ++ st.authority_records) < 3 →
      (DnsRelay.rewrite st none rtl).dns_header = st.dns_header) := by
  obtain ⟨hhd, -⟩ := rewrite_none_spec st rtl h0
  have hmax : MAX_A_RECORD_COUNT = 3 := rfl
  have hcA : countA (emitted 0 (st.standard_records ++ st.authority_records)) =
      min 3 (countA (st.standard_records ++ st.authority_records)) := by
    rw [countA_emitted _ 0 (by omega), hmax]
  have h6 : (st.dns_header.take 6).length = 6 := by
    rw [List.length_take, hh]
    rfl
  have h8 : (st.dns_header.take 6 ++ pack16 MAX_A_RECORD_COUNT).length = 8 := by
    rw [List.length_append, h6, pack16_length]
  by_cases hge : 3 ≤ countA (st.standard_records ++ st.authority_records)
  · have hcap : countA (emitted 0 (st.standard_records ++ st.authority_records)) =
        MAX_A_RECORD_COUNT := by
      rw [hcA, hmax]
      omega
    rw [hhd, if_pos hcap]
    refine ⟨?_, ?_, fun _ => ?_, fun hlt => absurd hge (by omega)⟩
    · rw [drop_append_len _ _ 8 h8]
    · rw [List.append_assoc, take_append_len _ _ 6 h6]
    · rw [List.append_assoc, drop_append_len _ _ 6 h6,
        take_append_len _ _ 2 (pack16_length _)]
      rfl
  · have hcap : ¬(countA (emitted 0 (st.standard_records ++ st.authority_records)) =
        MAX_A_RECORD_COUNT) := by
      rw [hcA, hmax]
      omega
    rw [hhd, if_neg hcap]
    exact ⟨rfl, rfl, fun hge2 => absurd hge2 hge, fun _ => rfl⟩

/-- Witness for `c8_header_patch` at the 3-A-record response. -/
theorem c8_header_patch_witness :
    ((DnsRelay.rewrite stC8 none 3600).dns_header.drop 6).take 2 = pack16 3 :=
  (c8_header_patch stC8 3600 rfl rfl).2.2.1 (by decide)

/-! ### C10: transaction-id substitution -/

theorem patched_take_two (h : List Nat) (hh : 2 ≤ h.length) (c : Nat) :
    (if c = MAX_A_RECORD_COUNT then
        h.take 6 ++ pack16 MAX_A_RECORD_COUNT ++ h.drop 8
      else h).take 2 = h.take 2 := by
  by_cases hc : c = MAX_A_RECORD_COUNT
  · rw [if_pos hc, List.append_assoc,
      List.take_append_of_le_length (by rw [List.length_take]; omega),
      List.take_take]
    norm_num
  · rw [if_neg hc]

/-- C10: `rewrite` substitutes the caller-supplied transaction id into
the first two header bytes only when it is truthy — `None` (the
default) and `0` both leave the header's id bytes unchanged, while any
nonzero id (below `2^16`, else `struct.pack` raises) replaces them. -/
theorem c10_dns_id_substitution (st : ParserState) (rtl i : Nat)
    (hh : 2 ≤ st.dns_header.length) (hi : i ≠ 0) (hle : i < 65536) :
    (DnsRelay.rewrite st (some 0) rtl).dns_header.take 2 =
      st.dns_header.take 2 ∧
    (DnsRelay.rewrite st none rtl).dns_header.take 2 =
      st.dns_header.take 2 ∧
    (DnsRelay.rewrite st (some i) rtl).dns_header.take 2 = pack16 i := by
  obtain ⟨hh1, -, -, -, hau1, -⟩ :=
    rewriteLoop_state st.standard_records st rtl []
  obtain ⟨hh2, -, -, -, -, -⟩ :=
    rewriteLoop_state (rewriteLoop st st.standard_records rtl []).1.authority_records
      (rewriteLoop st st.standard_records rtl []).1 rtl
      (rewriteLoop st st.standard_records rtl []).2
  rw [hh1] at hh2
  refine ⟨?_, ?_, ?_⟩
  · simp only [DnsRelay.rewrite, apply_ite ParserState.dns_header, hh2]
    exact patched_take_two st.dns_header hh _
  · simp only [DnsRelay.rewrite, apply_ite ParserState.dns_header, hh2]
    exact patched_take_two st.dns_header hh _
  · simp only [DnsRelay.rewrite, apply_ite ParserState.dns_header, hh2,
      ne_eq, hi, not_false_eq_true, if_true, ite_true]
    rw [take_append_len _ _ 2 (pack16_length _)]

/-- Witness for `c10_dns_id_substitution` with id 7. -/
theorem c10_dns_id_substitution_witness :
    (DnsRelay.rewrite stC8 (some 0) 3600).dns_header.take 2 =
      stC8.dns_header.take 2 ∧
    (DnsRelay.rewrite stC8 none 3600).dns_header.take 2 =
      stC8.dns_header.take 2 ∧
    (DnsRelay.rewrite stC8 (some 7) 3600).dns_header.take 2 = pack16 7 :=
  c10_dns_id_substitution stC8 3600 7 (by decide) (by decide) (by decide)

end DnsRelay
